import Mathlib

/-!
Verification of the `json_nav` crate: a utility that navigates nested JSON
values by a sequence of path segments (object keys or array indices),
reporting the first failing segment as a `Navigation` error carrying the
dotted path string, and optionally coercing the navigated value to one of
seven kinds, reporting a `TypeMismatch` error on failure.

The embedding mirrors `src/lib.rs`.  JSON values follow the
`serde_json::Value` data model; JSON numbers follow `serde_json`'s internal
representation (non-negative integer / negative integer / float), with the
float payload modelled as a rational number since every claim about floats
is at the level of kind tests, not float arithmetic.
-/

set_option autoImplicit false

namespace JsonNav

/-- A JSON number, mirroring `serde_json::Number`: a non-negative integer
(`u64` in the source), a negative integer (`i64`), or a float. -/
inductive JNumber where
  | posInt (n : Nat)
  | negInt (i : Int)
  | float (q : ℚ)
deriving DecidableEq

/-- A JSON value, mirroring `serde_json::Value`.  Objects are association
lists from keys to values. -/
inductive JsonValue where
  | null
  | bool (b : Bool)
  | num (n : JNumber)
  | str (s : String)
  | arr (xs : List JsonValue)
  | obj (m : List (String × JsonValue))

/-- A path segment: an object key (string) or an array index (integer),
as accepted by `serde_json::Value::get`. -/
inductive Seg where
  | key (s : String)
  | idx (n : Nat)
deriving DecidableEq

/-- The error type of the crate (`JsonNavError` in `src/lib.rs`):
`Navigation { path }` or `TypeMismatch { expected }`. -/
inductive JsonNavError where
  | navigation (path : String)
  | typeMismatch (expected : String)
deriving DecidableEq

/-- Key lookup in a JSON object, mirroring map lookup used by
`serde_json::Value::get` with a string index. -/
def lookupKey : List (String × JsonValue) → String → Option JsonValue
  | [], _ => none
  | (k, v) :: rest, s => if k = s then some v else lookupKey rest s

/-- `serde_json::Value::get`: a string segment looks up a key in an object,
an integer segment indexes into an array; anything else yields `none`. -/
def JsonValue.get : JsonValue → Seg → Option JsonValue
  | .obj m, .key s => lookupKey m s
  | .arr xs, .idx i => xs.get? i
  | _, _ => none

/-- How a segment is rendered into the dotted path string: keys verbatim,
array indices as their decimal text (the source uses `concat!` on the
literal token). -/
def Seg.render : Seg → String
  | .key s => s
  | .idx n => toString n

/-- One step of `json_nav_internal`: `$json.and_then(|x| x.get($path)
.ok_or(Navigation { path: concat!($base_path, '.', $path) }))`. -/
def navStep (json : Except JsonNavError JsonValue) (basePath : String)
    (p : Seg) : Except JsonNavError JsonValue :=
  json.bind fun x =>
    match x.get p with
    | some v => .ok v
    | none => .error (.navigation (basePath ++ "." ++ p.render))

/-- The recursive path walker `json_nav_internal` of `src/lib.rs`: the
single-segment case is one `navStep`; the multi-segment case performs one
step and recurses with the base path extended by the consumed segment. -/
def json_nav_internal (json : Except JsonNavError JsonValue)
    (basePath : String) : List Seg → Except JsonNavError JsonValue
  | [] => json
  | p :: rest => json_nav_internal (navStep json basePath p)
      (basePath ++ "." ++ p.render) rest

/-- The entry point `json_nav! { $json => $($path)=>+ }`: starts the walk
at `Ok(&$json)` with base path `stringify!($json)` (the root label). -/
def json_nav (root : JsonValue) (label : String)
    (segs : List Seg) : Except JsonNavError JsonValue :=
  json_nav_internal (.ok root) label segs

/-- The dotted path string: the base label joined by `.` with each
segment's rendering, in order. -/
def joinPath (base : String) (segs : List Seg) : String :=
  segs.foldl (fun acc p => acc ++ "." ++ p.render) base

/-- Pure lookup of a whole path, used to state which paths exist in a
value tree: each segment resolves via `JsonValue.get` in order. -/
def navOpt : JsonValue → List Seg → Option JsonValue
  | v, [] => some v
  | v, p :: rest => (v.get p).bind fun w => navOpt w rest

/-- The first failing segment of a walk, if any: position of the first
segment whose `get` fails, counting from the root. -/
def firstFail? : JsonValue → List Seg → Option Nat
  | v, p :: rest =>
    match v.get p with
    | some w => (firstFail? w rest).map (· + 1)
    | none => some 0
  | _, [] => none

/-- `firstFailAt root segs k`: segments before `k` all resolve, and the
segment at position `k` fails to resolve in the value reached. -/
def firstFailAt (root : JsonValue) (segs : List Seg) (k : Nat) : Prop :=
  ∃ (hk : k < segs.length) (v : JsonValue),
    navOpt root (segs.take k) = some v ∧ v.get (segs.get ⟨k, hk⟩) = none

/-- Is this error a `Navigation` error? -/
def JsonNavError.isNav : JsonNavError → Bool
  | .navigation _ => true
  | .typeMismatch _ => false

/-- The seven target kinds of the `; as K` arms of the `json_nav!` entry
point: object, array, str, bool, u64, i64, f64. -/
inductive Kind where
  | object
  | array
  | str
  | bool
  | u64
  | i64
  | f64
deriving DecidableEq

/-- The literal `expected` string each `as K` arm puts into its
`TypeMismatch` error. -/
def Kind.name : Kind → String
  | .object => "object"
  | .array => "array"
  | .str => "str"
  | .bool => "bool"
  | .u64 => "u64"
  | .i64 => "i64"
  | .f64 => "f64"

/-- The coerced view returned by a successful `as K` extraction. -/
inductive JsonView where
  | object (m : List (String × JsonValue))
  | array (xs : List JsonValue)
  | str (s : String)
  | bool (b : Bool)
  | u64 (n : Nat)
  | i64 (i : Int)
  | f64 (q : ℚ)

/-- `serde_json::Number::as_u64`: `Some` exactly on the non-negative
integer representation. -/
def JNumber.as_u64 : JNumber → Option Nat
  | .posInt n => some n
  | _ => none

/-- `serde_json::Number::as_i64`: a non-negative integer fits if it is at
most `i64::MAX`; a negative integer always fits; a float never does. -/
def JNumber.as_i64 : JNumber → Option Int
  | .posInt n => if n ≤ 2 ^ 63 - 1 then some (n : Int) else none
  | .negInt i => some i
  | .float _ => none

/-- `serde_json::Number::as_f64`: every number representation converts to
a float (`Some` in all three cases). -/
def JNumber.as_f64 : JNumber → Option ℚ
  | .posInt n => some (n : ℚ)
  | .negInt i => some (i : ℚ)
  | .float q => some q

/-- The number viewed as a float: the value `as_f64` always produces. -/
def JNumber.toRat : JNumber → ℚ
  | .posInt n => (n : ℚ)
  | .negInt i => (i : ℚ)
  | .float q => q

/-- `serde_json::Value::as_object`. -/
def JsonValue.as_object : JsonValue → Option (List (String × JsonValue))
  | .obj m => some m
  | _ => none

/-- `serde_json::Value::as_array`. -/
def JsonValue.as_array : JsonValue → Option (List JsonValue)
  | .arr xs => some xs
  | _ => none

/-- `serde_json::Value::as_str`. -/
def JsonValue.as_str : JsonValue → Option String
  | .str s => some s
  | _ => none

/-- `serde_json::Value::as_bool`. -/
def JsonValue.as_bool : JsonValue → Option Bool
  | .bool b => some b
  | _ => none

/-- `serde_json::Value::as_u64`: delegates to the number's kind check. -/
def JsonValue.as_u64 : JsonValue → Option Nat
  | .num n => n.as_u64
  | _ => none

/-- `serde_json::Value::as_i64`: delegates to the number's kind check. -/
def JsonValue.as_i64 : JsonValue → Option Int
  | .num n => n.as_i64
  | _ => none

/-- `serde_json::Value::as_f64`: delegates to the number's kind check. -/
def JsonValue.as_f64 : JsonValue → Option ℚ
  | .num n => n.as_f64
  | _ => none

/-- The kind test and view used by the `as K` arm for kind `K`: the
source's `x.as_K()` call, per kind. -/
def coerceView (v : JsonValue) : Kind → Option JsonView
  | .object => v.as_object.map JsonView.object
  | .array => v.as_array.map JsonView.array
  | .str => v.as_str.map JsonView.str
  | .bool => v.as_bool.map JsonView.bool
  | .u64 => v.as_u64.map JsonView.u64
  | .i64 => v.as_i64.map JsonView.i64
  | .f64 => v.as_f64.map JsonView.f64

/-- The source's `x.as_K().ok_or(TypeMismatch { expected: "K" })`. -/
def coerceOrErr (v : JsonValue) (k : Kind) : Except JsonNavError JsonView :=
  match coerceView v k with
  | some w => .ok w
  | none => .error (.typeMismatch k.name)

/-- The `json_nav! { $json => $($path)=>+; as K }` form: navigate first,
then `_x.and_then(|x| x.as_K().ok_or(TypeMismatch { expected: "K" }))`. -/
def json_nav_as (root : JsonValue) (label : String) (segs : List Seg)
    (k : Kind) : Except JsonNavError JsonView :=
  (json_nav root label segs).bind fun x => coerceOrErr x k

/-- `json_nav_internal` instrumented with the number of `get` lookups
performed: `and_then` runs its closure (and hence the lookup) only while
the accumulator is still `Ok`. -/
def navInstr (json : Except JsonNavError JsonValue) (basePath : String) :
    List Seg → Except JsonNavError JsonValue × Nat
  | [] => (json, 0)
  | p :: rest =>
    let r := navInstr (navStep json basePath p) (basePath ++ "." ++ p.render) rest
    (r.1, (match json with | .ok _ => 1 | .error _ => 0) + r.2)

/-- The root value of the crate's doc example:
`{"code": 200, "success": true, "payload": {"features": ["serde", "json"]}}`. -/
def exampleRoot : JsonValue :=
  .obj [("code", .num (.posInt 200)),
        ("success", .bool true),
        ("payload", .obj [("features", .arr [.str "serde", .str "json"])])]

/-- The rational `1/2`, given in reduced form so that it evaluates. -/
def oneHalf : ℚ := ⟨1, 2, by decide, by decide⟩

/-- A second root value for numeric-kind witnesses: `{"half": 0.5}`. -/
def fracRoot : JsonValue :=
  .obj [("half", .num (.float oneHalf))]

/-! ## Helper lemmas -/

theorem navStep_ok (v : JsonValue) (base : String) (p : Seg) :
    navStep (.ok v) base p =
      match v.get p with
      | some w => .ok w
      | none => .error (.navigation (base ++ "." ++ p.render)) := rfl

theorem navStep_error (e : JsonNavError) (base : String) (p : Seg) :
    navStep (.error e) base p = .error e := rfl

theorem internal_error (e : JsonNavError) (base : String) (segs : List Seg) :
    json_nav_internal (.error e) base segs = .error e := by
  induction segs generalizing base with
  | nil => rfl
  | cons p rest ih => exact ih (base ++ "." ++ p.render)

theorem internal_ok_cons (v : JsonValue) (base : String) (p : Seg) (rest : List Seg) :
    json_nav_internal (.ok v) base (p :: rest) =
      match v.get p with
      | some w => json_nav_internal (.ok w) (base ++ "." ++ p.render) rest
      | none => .error (.navigation (base ++ "." ++ p.render)) := by
  show json_nav_internal (navStep (.ok v) base p) (base ++ "." ++ p.render) rest = _
  rw [navStep_ok]
  cases hg : v.get p with
  | some w => rfl
  | none => exact internal_error _ _ _

theorem nav_success_aux (segs : List Seg) :
    ∀ (v w : JsonValue) (base : String),
      navOpt v segs = some w → json_nav_internal (.ok v) base segs = .ok w := by
  induction segs with
  | nil =>
      intro v w base h
      simp only [navOpt, Option.some.injEq] at h
      subst h; rfl
  | cons p rest ih =>
      intro v w base h
      simp only [navOpt] at h
      cases hg : v.get p with
      | none => rw [hg] at h; exact absurd h (by simp)
      | some u =>
          rw [hg] at h
          rw [internal_ok_cons, hg]
          exact ih u w _ h

theorem nav_fail_aux (segs : List Seg) :
    ∀ (k : Nat) (v : JsonValue) (base : String) (hk : k < segs.length)
      (v' : JsonValue),
      navOpt v (segs.take k) = some v' → v'.get (segs.get ⟨k, hk⟩) = none →
      json_nav_internal (.ok v) base segs =
        .error (.navigation (joinPath base (segs.take (k + 1)))) := by
  induction segs with
  | nil => intro k v base hk; exact absurd hk (Nat.not_lt_zero k)
  | cons p rest ih =>
      intro k v base hk v' hnav hget
      cases k with
      | zero =>
          simp only [List.take, navOpt, Option.some.injEq] at hnav
          subst hnav
          rw [internal_ok_cons]
          rw [show (p :: rest).get ⟨0, hk⟩ = p from rfl] at hget
          rw [hget]
          rfl
      | succ k =>
          rw [show (p :: rest).take (k + 1) = p :: rest.take k from rfl] at hnav
          simp only [navOpt] at hnav
          cases hg : v.get p with
          | none => rw [hg] at hnav; exact absurd hnav (by simp)
          | some w =>
              rw [hg] at hnav
              rw [internal_ok_cons, hg]
              have hk' : k < rest.length := Nat.lt_of_succ_lt_succ hk
              have hget' : v'.get (rest.get ⟨k, hk'⟩) = none := hget
              exact ih k w (base ++ "." ++ p.render) hk' v' hnav hget'

theorem error_isNav_aux (segs : List Seg) :
    ∀ (v : JsonValue) (base : String) (e : JsonNavError),
      json_nav_internal (.ok v) base segs = .error e → e.isNav = true := by
  induction segs with
  | nil => intro v base e h; exact Except.noConfusion h
  | cons p rest ih =>
      intro v base e h
      rw [internal_ok_cons] at h
      cases hg : v.get p with
      | some w => rw [hg] at h; exact ih w _ e h
      | none =>
          rw [hg] at h
          injection h with h
          subst h
          rfl

theorem navInstr_fst (segs : List Seg) :
    ∀ (json : Except JsonNavError JsonValue) (base : String),
      (navInstr json base segs).1 = json_nav_internal json base segs := by
  induction segs with
  | nil => intro json base; rfl
  | cons p rest ih => intro json base; exact ih _ _

theorem navInstr_error_count (segs : List Seg) :
    ∀ (e : JsonNavError) (base : String),
      (navInstr (.error e) base segs).2 = 0 := by
  induction segs with
  | nil => intro e base; rfl
  | cons p rest ih =>
      intro e base
      show 0 + (navInstr (navStep (.error e) base p) (base ++ "." ++ p.render) rest).2 = 0
      rw [navStep_error, Nat.zero_add]
      exact ih e _

theorem navInstr_ok_count (segs : List Seg) :
    ∀ (v : JsonValue) (base : String),
      (navInstr (.ok v) base segs).2 =
        (match firstFail? v segs with
         | some k => k + 1
         | none => segs.length) := by
  induction segs with
  | nil => intro v base; rfl
  | cons p rest ih =>
      intro v base
      show (match (Except.ok v : Except JsonNavError JsonValue) with
            | .ok _ => 1
            | .error _ => 0) +
          (navInstr (navStep (.ok v) base p) (base ++ "." ++ p.render) rest).2 = _
      rw [navStep_ok]
      cases hg : v.get p with
      | some w =>
          rw [ih w]
          show 1 + _ = (match firstFail? v (p :: rest) with
                        | some k => k + 1
                        | none => (p :: rest).length)
          have hff : firstFail? v (p :: rest) = (firstFail? w rest).map (· + 1) := by
            simp only [firstFail?, hg]
          rw [hff]
          cases firstFail? w rest with
          | some k =>
              show 1 + (k + 1) = k + 1 + 1
              omega
          | none =>
              show 1 + rest.length = rest.length + 1
              omega
      | none =>
          rw [navInstr_error_count]
          show 1 + 0 = (match firstFail? v (p :: rest) with
                        | some k => k + 1
                        | none => (p :: rest).length)
          rw [show firstFail? v (p :: rest) =
                match v.get p with
                | some w => (firstFail? w rest).map (· + 1)
                | none => some 0 from rfl, hg]

/-! ## Claim theorems -/

/-- Claim C1: for every root value, root label, and non-empty segment
sequence whose first failing segment is at position `k` (key absent, index
out of bounds, or current value not indexable), navigation returns a
`Navigation` error whose path string equals the root label joined by `.`
with `segments[0..=k]`, array indices rendered as decimal text. -/
theorem json_nav_first_fail_path (root : JsonValue) (label : String)
    (segs : List Seg) (k : Nat) (h : firstFailAt root segs k) :
    json_nav root label segs =
      .error (.navigation (joinPath label (segs.take (k + 1)))) := by
  obtain ⟨hk, v, hnav, hget⟩ := h
  exact nav_fail_aux segs k root label hk v hnav hget

/-- Witness for C1: the crate's doc example, failing at `failure`
(position 1), yields path `value.payload.failure`. -/
theorem json_nav_first_fail_path_witness :
    json_nav exampleRoot "value" [Seg.key "payload", Seg.key "failure"] =
      .error (.navigation "value.payload.failure") :=
  json_nav_first_fail_path exampleRoot "value"
    [Seg.key "payload", Seg.key "failure"] 1
    ⟨by decide,
     JsonValue.obj [("features", .arr [.str "serde", .str "json"])],
     rfl, rfl⟩

/-- Claim C2: for every root value and non-empty segment sequence that
describes an existing path (each segment resolves via object-key or
array-index lookup in order), navigation returns `Ok` with the sub-value
reached after consuming all segments. -/
theorem json_nav_success (root : JsonValue) (label : String)
    (segs : List Seg) (v : JsonValue) (_hne : segs ≠ [])
    (h : navOpt root segs = some v) :
    json_nav root label segs = .ok v :=
  nav_success_aux segs root v label h

/-- Witness for C2: the crate's doc example, `value.payload.features.0`
resolves to the string `serde`. -/
theorem json_nav_success_witness :
    json_nav exampleRoot "value"
      [Seg.key "payload", Seg.key "features", Seg.idx 0] = .ok (.str "serde") :=
  json_nav_success exampleRoot "value"
    [Seg.key "payload", Seg.key "features", Seg.idx 0] (.str "serde")
    (by decide) rfl

/-- Claim C3: navigation is left-to-right and short-circuiting: if the
first failing segment is at position `i`, the result equals the result of
navigating with only `segments[0..=i]`, and the error's path is built from
exactly those segments. -/
theorem json_nav_short_circuit (root : JsonValue) (label : String)
    (segs : List Seg) (i : Nat) (h : firstFailAt root segs i) :
    json_nav root label segs = json_nav root label (segs.take (i + 1)) ∧
    json_nav root label segs =
      .error (.navigation (joinPath label (segs.take (i + 1)))) := by
  obtain ⟨hk, v, hnav, hget⟩ := h
  have h1 := nav_fail_aux segs i root label hk v hnav hget
  have hk' : i < (segs.take (i + 1)).length := by
    rw [List.length_take]
    exact lt_min (Nat.lt_succ_self i) hk
  have hnav' : navOpt root ((segs.take (i + 1)).take i) = some v := by
    rw [List.take_take, min_eq_left (Nat.le_succ i)]
    exact hnav
  have hget' : (segs.take (i + 1)).get ⟨i, hk'⟩ = segs.get ⟨i, hk⟩ := by
    simp [List.get_eq_getElem, List.getElem_take]
  have h2 := nav_fail_aux (segs.take (i + 1)) i root label hk' v hnav'
    (by rw [hget']; exact hget)
  rw [List.take_take, min_self] at h2
  exact ⟨h1.trans h2.symm, h1⟩

/-- Witness for C3: with a segment appended after the failing one, the
result equals navigation over the first two segments alone, and the path
stops at the failing segment. -/
theorem json_nav_short_circuit_witness :
    (json_nav exampleRoot "value"
        [Seg.key "payload", Seg.key "failure", Seg.key "deeper"] =
      json_nav exampleRoot "value"
        ([Seg.key "payload", Seg.key "failure", Seg.key "deeper"].take 2)) ∧
    json_nav exampleRoot "value"
        [Seg.key "payload", Seg.key "failure", Seg.key "deeper"] =
      .error (.navigation (joinPath "value"
        ([Seg.key "payload", Seg.key "failure", Seg.key "deeper"].take 2))) :=
  json_nav_short_circuit exampleRoot "value"
    [Seg.key "payload", Seg.key "failure", Seg.key "deeper"] 1
    ⟨by decide,
     JsonValue.obj [("features", .arr [.str "serde", .str "json"])],
     rfl, rfl⟩

/-- Claim C4: once navigation has reached a value, typed extraction
returns the coerced view exactly when the value's kind test for the
requested kind succeeds, and otherwise a `TypeMismatch` error naming the
requested kind — for any segment sequence that navigated there. -/
theorem json_nav_as_kind_match (root : JsonValue) (label : String)
    (segs : List Seg) (k : Kind) (v : JsonValue)
    (h : json_nav root label segs = .ok v) :
    json_nav_as root label segs k =
      match coerceView v k with
      | some w => .ok w
      | none => .error (.typeMismatch k.name) := by
  simp only [json_nav_as, h]
  rfl

/-- Witness for C4: the crate's doc example, `value.payload.features.1`
is the string `json`, so `as object` fails with expected `object`. -/
theorem json_nav_as_kind_match_witness :
    json_nav_as exampleRoot "value"
      [Seg.key "payload", Seg.key "features", Seg.idx 1] Kind.object =
      .error (.typeMismatch "object") :=
  json_nav_as_kind_match exampleRoot "value"
    [Seg.key "payload", Seg.key "features", Seg.idx 1] Kind.object
    (.str "json") rfl

/-- Claim C5: typed extraction happens only after navigation: if
navigation fails, the `; as K` form returns exactly the same error, which
is a `Navigation` error, never a `TypeMismatch`. -/
theorem json_nav_as_propagates_navigation (root : JsonValue)
    (label : String) (segs : List Seg) (k : Kind) (e : JsonNavError)
    (h : json_nav root label segs = .error e) :
    json_nav_as root label segs k = .error e ∧ e.isNav = true := by
  constructor
  · simp only [json_nav_as, h]
    rfl
  · exact error_isNav_aux segs root label e h

/-- Witness for C5: the failing path `value.payload.failure` under
`as str` still returns the `Navigation` error, untouched. -/
theorem json_nav_as_propagates_navigation_witness :
    json_nav_as exampleRoot "value" [Seg.key "payload", Seg.key "failure"]
        Kind.str =
      .error (.navigation "value.payload.failure") ∧
    (JsonNavError.navigation "value.payload.failure").isNav = true :=
  json_nav_as_propagates_navigation exampleRoot "value"
    [Seg.key "payload", Seg.key "failure"] Kind.str
    (.navigation "value.payload.failure") rfl

/-- Claim C6: the recognized expected-kind names are exactly the seven
strings `object`, `array`, `str`, `bool`, `u64`, `i64`, `f64`; the seven
kinds listed are all the kinds there are; and a failed coercion for kind
`k` carries exactly `k`'s name (shown on `null`, which matches no kind). -/
theorem kind_names_exact :
    ([Kind.object, Kind.array, Kind.str, Kind.bool, Kind.u64, Kind.i64,
        Kind.f64].map Kind.name =
      ["object", "array", "str", "bool", "u64", "i64", "f64"]) ∧
    (∀ k : Kind, k ∈ [Kind.object, Kind.array, Kind.str, Kind.bool,
        Kind.u64, Kind.i64, Kind.f64]) ∧
    (∀ k : Kind,
      coerceOrErr JsonValue.null k = .error (.typeMismatch k.name)) := by
  refine ⟨rfl, ?_, ?_⟩
  · intro k; cases k <;> simp
  · intro k; cases k <;> rfl

/-- Claim C7: numeric coercions follow the number's representation: a
navigated non-negative integer satisfies `as u64`; a navigated number with
a fractional component fails `as u64` and `as i64` with the corresponding
`TypeMismatch` and succeeds under `as f64`. -/
theorem numeric_kind_coercions (root₁ root₂ : JsonValue)
    (label₁ label₂ : String) (segs₁ segs₂ : List Seg) (n : Nat) (q : ℚ)
    (h₁ : json_nav root₁ label₁ segs₁ = .ok (.num (.posInt n)))
    (_hq : q.den ≠ 1)
    (h₂ : json_nav root₂ label₂ segs₂ = .ok (.num (.float q))) :
    json_nav_as root₁ label₁ segs₁ Kind.u64 = .ok (.u64 n) ∧
    json_nav_as root₂ label₂ segs₂ Kind.u64 =
      .error (.typeMismatch "u64") ∧
    json_nav_as root₂ label₂ segs₂ Kind.i64 =
      .error (.typeMismatch "i64") ∧
    json_nav_as root₂ label₂ segs₂ Kind.f64 = .ok (.f64 q) := by
  refine ⟨?_, ?_, ?_, ?_⟩ <;> simp only [json_nav_as, h₁, h₂] <;> rfl

/-- Witness for C7: `value.code` is the integer `200` (so `as u64`
succeeds); `half.half` is the fractional number `1/2` (so `as u64` and
`as i64` mismatch while `as f64` succeeds). -/
theorem numeric_kind_coercions_witness :
    json_nav_as exampleRoot "value" [Seg.key "code"] Kind.u64 =
      .ok (.u64 200) ∧
    json_nav_as fracRoot "half" [Seg.key "half"] Kind.u64 =
      .error (.typeMismatch "u64") ∧
    json_nav_as fracRoot "half" [Seg.key "half"] Kind.i64 =
      .error (.typeMismatch "i64") ∧
    json_nav_as fracRoot "half" [Seg.key "half"] Kind.f64 =
      .ok (.f64 oneHalf) :=
  numeric_kind_coercions exampleRoot fracRoot "value" "half"
    [Seg.key "code"] [Seg.key "half"] 200 oneHalf rfl (by decide) rfl

/-- Claim C8: navigation is deterministic: two calls with the same root
value, root label, and segment sequence yield equal results (the
embedding is a pure function of its inputs, and values are immutable). -/
theorem json_nav_deterministic (root : JsonValue) (label : String)
    (segs : List Seg) (r₁ r₂ : Except JsonNavError JsonValue)
    (h₁ : json_nav root label segs = r₁)
    (h₂ : json_nav root label segs = r₂) : r₁ = r₂ :=
  h₁.symm.trans h₂

/-- Witness for C8: two runs of the doc example's failing path agree. -/
theorem json_nav_deterministic_witness :
    (Except.error (JsonNavError.navigation "value.payload.failure") :
        Except JsonNavError JsonValue) =
      .error (.navigation "value.payload.failure") :=
  json_nav_deterministic exampleRoot "value"
    [Seg.key "payload", Seg.key "failure"] _ _ rfl rfl

/-- Claim C9: navigation is total (structural recursion on the segment
list) and performs exactly one lookup per segment up to and including the
first failure: the instrumented walker computes the same result as
`json_nav`, and its lookup count is `k + 1` when the first failure is at
position `k` and the number of segments when there is no failure. -/
theorem json_nav_lookup_count (root : JsonValue) (label : String)
    (segs : List Seg) :
    (navInstr (.ok root) label segs).1 = json_nav root label segs ∧
    (navInstr (.ok root) label segs).2 =
      (match firstFail? root segs with
       | some k => k + 1
       | none => segs.length) :=
  ⟨navInstr_fst segs (.ok root) label, navInstr_ok_count segs root label⟩

/-- Claim C10: `as f64` succeeds on every navigated JSON number,
whatever its representation — integer or float — returning the number
viewed as a float, never a `TypeMismatch`. -/
theorem as_f64_total_on_numbers (root : JsonValue) (label : String)
    (segs : List Seg) (n : JNumber)
    (h : json_nav root label segs = .ok (.num n)) :
    json_nav_as root label segs Kind.f64 = .ok (.f64 n.toRat) := by
  simp only [json_nav_as, h]
  cases n <;> rfl

/-- Witness for C10: `value.code` is the integer `200`, and `as f64`
succeeds on it. -/
theorem as_f64_total_on_numbers_witness :
    json_nav_as exampleRoot "value" [Seg.key "code"] Kind.f64 =
      .ok (.f64 (JNumber.posInt 200).toRat) :=
  as_f64_total_on_numbers exampleRoot "value" [Seg.key "code"]
    (JNumber.posInt 200) rfl

end JsonNav
